import Mathlib

/-
Verification of the session-orchestration controller of the
turkish-transcribe frontend: the `useTranscription` hook and the
`TranscriptionAPI` client (status polling loop, WebSocket push listener,
upload / cancel / reset / download / copy operations).

The state types follow `src/lib/types.ts`; the operations are shallow
embeddings of the corresponding functions in the hook and the API client.
Numeric progress values are modelled as rationals; `Math.random()` is
modelled as an explicit parameter `r` with `0 ≤ r < 1`.  JavaScript
truthiness of the `||` defaults and of the string guards is modelled
explicitly (empty string and zero are falsy).
-/

namespace TurkishTranscribe

/-- `TaskStatus` from src/lib/types.ts: the status carried by
`TranscriptionState` and `TranscriptionResponse`. -/
inductive TaskStatus
  | pending
  | processing
  | completed
  | failed
  deriving DecidableEq

/-- Terminal statuses, as tested by the polling loop
(`response.status === 'completed' || response.status === 'failed'`). -/
def TaskStatus.isTerminal : TaskStatus → Bool
  | .completed => true
  | .failed => true
  | _ => false

/-- The phase ordering used by the specification:
pending < processing < {completed, failed}. -/
def TaskStatus.phaseRank : TaskStatus → Nat
  | .pending => 0
  | .processing => 1
  | .completed => 2
  | .failed => 2

/-- `TranscriptionResponse` from src/lib/types.ts, restricted to the fields
the controller logic reads (`task_id`, `status`, `text`, `error`). -/
structure TranscriptionResponse where
  task_id : String
  status : TaskStatus
  text : Option String
  error : Option String
  deriving DecidableEq

/-- `TranscriptionState` from src/lib/types.ts (the authoritative job state
held by the hook). -/
structure TranscriptionState where
  taskId : Option String
  status : TaskStatus
  progress : Rat
  stage : Option String
  message : Option String
  result : Option TranscriptionResponse
  error : Option String
  deriving DecidableEq

/-- `UploadState` from src/lib/types.ts; the file handle is modelled by its
name. -/
structure UploadState where
  file : Option String
  uploading : Bool
  progress : Rat
  error : Option String
  deriving DecidableEq

/-- `FileUploadResponse` from src/lib/types.ts, restricted to the fields the
hook reads. -/
structure FileUploadResponse where
  file_id : String
  filename : String
  size : Nat
  deriving DecidableEq

/-- JavaScript `x || d` on an optional string (absent and empty string are
falsy). -/
def jsOrStr : Option String → Option String → Option String
  | some s, d => if s = "" then d else some s
  | none, d => d

/-- JavaScript `x || d` on an optional string with a plain-string default. -/
def jsStrOrD : Option String → String → String
  | some s, d => if s = "" then d else s
  | none, d => d

/-- JavaScript `x || d` on an optional number (absent and `0` are falsy). -/
def jsOrRat : Option Rat → Rat → Rat
  | some q, d => if q = 0 then d else q
  | none, d => d

/-- The `onUpdate` callback that `startTranscription` installs on the polling
loop (the `setTranscriptionState` updater in the hook): it overwrites
`status` with the incoming status, stores the whole response as `result`,
and sets `progress` to `Math.random() * 50 + 25` while processing, `100` on
completed, `0` on failed, and keeps the previous value otherwise.  `r`
stands for the value drawn from `Math.random()`. -/
def applyPollUpdate (r : Rat) (prev : TranscriptionState)
    (update : TranscriptionResponse) : TranscriptionState :=
  { prev with
    status := update.status
    result := some update
    progress :=
      if update.status = .processing then r * 50 + 25
      else if update.status = .completed then 100
      else if update.status = .failed then 0
      else prev.progress }

/-- The push (WebSocket) frames handled by the hook's `onMessage` handler:
`{type: progress|status|result|error, data}`. -/
inductive WsFrame
  | progress (progress : Option Rat) (stage : Option String)
      (message : Option String)
  | status (status : TaskStatus) (progress : Option Rat)
  | result (data : TranscriptionResponse)
  | error (error : Option String)
  deriving DecidableEq

/-- The `connectWebSocket` `onMessage` handler of `startTranscription`:
a `progress` frame sets `progress := data.progress || 0`,
`stage := data.stage || prev.stage`, `message := data.message || ''`;
a `status` frame sets `status := data.status`,
`progress := data.progress || prev.progress`; a `result` frame sets
`status := completed`, `progress := 100`, `result := data`; an `error`
frame sets `status := failed`, `error := data.error`. -/
def applyWsMessage (prev : TranscriptionState) : WsFrame → TranscriptionState
  | .progress p st m =>
      { prev with
        progress := jsOrRat p 0
        stage := jsOrStr st prev.stage
        message := some (jsStrOrD m "") }
  | .status s p =>
      { prev with status := s, progress := jsOrRat p prev.progress }
  | .result d =>
      { prev with status := .completed, progress := 100, result := some d }
  | .error e =>
      { prev with status := .failed, error := e }

/-- One update delivered to the controller, from either source. -/
inductive Update
  | poll (r : Rat) (resp : TranscriptionResponse)
  | push (frame : WsFrame)
  deriving DecidableEq

/-- Reconciliation of a single update, as the hook implements it. -/
def applyUpdate (s : TranscriptionState) : Update → TranscriptionState
  | .poll r resp => applyPollUpdate r s resp
  | .push f => applyWsMessage s f

/-- An interleaving of poll/push updates applied in arrival order (the
single-threaded event loop serializes the two callbacks). -/
def applyUpdates (s : TranscriptionState) (us : List Update) :
    TranscriptionState :=
  List.foldl applyUpdate s us

/-- The outcome of one `getTaskStatus` fetch inside the polling loop. -/
inductive FetchOutcome
  | ok (resp : TranscriptionResponse)
  | err
  deriving DecidableEq

/-- The environment of one iteration of `pollTaskStatus.poll`:
whether the stop handle was invoked before this iteration's `stopped`
check, whether it was invoked while the fetch was in flight, and how the
fetch resolved. -/
structure PollStep where
  stopBefore : Bool
  stopInFlight : Bool
  outcome : FetchOutcome
  deriving DecidableEq

/-- The observable state of one `pollTaskStatus` loop: the `stopped` flag,
the sequence of responses delivered to `onUpdate`, and the delay of the
`setTimeout` scheduled by the last iteration (`none` when nothing further
is scheduled). -/
structure PollState where
  stopped : Bool
  delivered : List TranscriptionResponse
  nextDelay : Option Nat
  deriving DecidableEq

/-- Loop state before the first iteration (`stopped = false`, nothing
delivered, first `poll()` invoked immediately). -/
def pollInit : PollState := ⟨false, [], some 0⟩

/-- One iteration of `pollTaskStatus.poll`: `if (stopped) return;` then the
fetch; on resolution the response is handed to `onUpdate` with no further
`stopped` re-check; a terminal status sets `stopped` and schedules nothing;
a non-terminal success reschedules at `interval`; a transport failure
reschedules at `interval * 2` and delivers nothing. -/
def pollIter (interval : Nat) (s : PollState) (step : PollStep) : PollState :=
  let stopped0 := s.stopped || step.stopBefore
  if stopped0 then
    { stopped := stopped0, delivered := s.delivered, nextDelay := none }
  else
    let stopped1 := stopped0 || step.stopInFlight
    match step.outcome with
    | .err =>
        { stopped := stopped1, delivered := s.delivered
          nextDelay := some (interval * 2) }
    | .ok resp =>
        if resp.status.isTerminal then
          { stopped := true, delivered := s.delivered ++ [resp]
            nextDelay := none }
        else
          { stopped := stopped1, delivered := s.delivered ++ [resp]
            nextDelay := some interval }

/-- A whole run of the polling loop over a sequence of iteration
environments. -/
def pollRun (interval : Nat) (steps : List PollStep) : PollState :=
  List.foldl (pollIter interval) pollInit steps

/-- The observable state owned by the `useTranscription` hook. -/
structure HookState where
  upload : UploadState
  transcription : TranscriptionState
  deriving DecidableEq

/-- Initial `UploadState` of the hook. -/
def initialUploadState : UploadState := ⟨none, false, 0, none⟩

/-- Initial `TranscriptionState` of the hook (`status: 'pending'`). -/
def initialTranscriptionState : TranscriptionState :=
  ⟨none, .pending, 0, none, none, none, none⟩

/-- Initial hook state. -/
def initialHookState : HookState :=
  ⟨initialUploadState, initialTranscriptionState⟩

/-- The hook's `uploadFile`: resets the upload state to
`{file, uploading: true, progress: 0}`, applies the transfer progress
callbacks, then on success sets `uploading := false, progress := 100` and
returns the response, and on failure sets `uploading := false` and the
error message and returns `none`.  `transcriptionState` is never touched. -/
def uploadFile (s : HookState) (f : String) (progressEvents : List Rat)
    (outcome : Except String FileUploadResponse) :
    HookState × Option FileUploadResponse :=
  let u0 : UploadState :=
    { file := some f, uploading := true, progress := 0, error := none }
  let u1 := List.foldl
    (fun (u : UploadState) (p : Rat) => { u with progress := p })
    u0 progressEvents
  match outcome with
  | .ok resp =>
      ({ s with upload := { u1 with uploading := false, progress := 100 } },
       some resp)
  | .error msg =>
      ({ s with upload := { u1 with uploading := false, error := some msg } },
       none)

/-- The state `startTranscription` installs before submitting:
`setTranscriptionState({status: 'processing', progress: 0, error: undefined})`
replaces the whole state. -/
def startTranscriptionBegin : TranscriptionState :=
  { taskId := none, status := .processing, progress := 0
    stage := none, message := none, result := none, error := none }

/-- The hook's `startTranscription` up to the installation of the polling
loop and WebSocket: it never inspects the previous state; on a successful
submission it records `taskId` and the submission status and starts the
polling loop and push channel (second component `true`); on a failed
submission it sets `status := failed` with the message and starts
nothing. -/
def startTranscription (prev : TranscriptionState)
    (submit : Except String TranscriptionResponse) :
    TranscriptionState × Bool :=
  match submit with
  | .ok resp =>
      ({ startTranscriptionBegin with
          taskId := some resp.task_id, status := resp.status }, true)
  | .error msg =>
      ({ startTranscriptionBegin with
          status := .failed, error := some msg }, false)

/-- The hook's `processFile`: upload, then submit only if the upload
returned a response. The second component records whether a job was
submitted and a polling loop started. -/
def processFile (s : HookState) (f : String) (progressEvents : List Rat)
    (uploadOutcome : Except String FileUploadResponse)
    (submit : Except String TranscriptionResponse) : HookState × Bool :=
  match uploadFile s f progressEvents uploadOutcome with
  | (s1, none) => (s1, false)
  | (s1, some _) =>
      let r := startTranscription s1.transcription submit
      ({ s1 with transcription := r.1 }, r.2)

/-- The message `cancel` writes into `UploadState.error`. -/
def cancelUploadErrorMsg : String := "İptal edildi"

/-- The message `cancel` writes into `TranscriptionState.error`. -/
def cancelJobErrorMsg : String := "İşlem kullanıcı tarafından iptal edildi"

/-- The hook's `cancel` restricted to observable state: if a file is set and
an upload is in flight it marks the upload cancelled; it always stops
polling, closes the socket and dismisses the toast (resource cleanup, not
observable here); and only if `status === 'processing'` it transitions the
job state to failed with the cancelled-by-user error. -/
def cancel (s : HookState) : HookState :=
  let u :=
    if s.upload.file.isSome && s.upload.uploading then
      { s.upload with uploading := false, error := some cancelUploadErrorMsg }
    else s.upload
  let t :=
    if s.transcription.status = .processing then
      { s.transcription with
          status := .failed, error := some cancelJobErrorMsg }
    else s.transcription
  { upload := u, transcription := t }

/-- The externally visible effect of the hook's `downloadResult`. -/
inductive DownloadAction
  | noResultError
  | transfer (taskId : String) (format : String)
  deriving DecidableEq

/-- The hook's `downloadResult`: guarded by `if (!transcriptionState.taskId)`
(absent or empty task id is falsy); otherwise it fetches the artifact for
the stored task id. It never writes the hook state. -/
def downloadResult (s : HookState) (format : String) :
    HookState × DownloadAction :=
  match s.transcription.taskId with
  | none => (s, .noResultError)
  | some tid =>
      if tid = "" then (s, .noResultError) else (s, .transfer tid format)

/-- The externally visible effect of the hook's `copyToClipboard`. -/
inductive CopyAction
  | noTextError
  | clipboardWrite (text : String)
  deriving DecidableEq

/-- The hook's `copyToClipboard`: guarded by
`if (!transcriptionState.result?.text)`; otherwise it writes the result
text to the clipboard. It never writes the hook state. -/
def copyToClipboard (s : HookState) : HookState × CopyAction :=
  match s.transcription.result with
  | none => (s, .noTextError)
  | some res =>
      match res.text with
      | none => (s, .noTextError)
      | some t =>
          if t = "" then (s, .noTextError) else (s, .clipboardWrite t)

/-- A non-terminal (processing) response fixture. -/
def procResp : TranscriptionResponse := ⟨"t1", .processing, none, none⟩

/-- A completed response fixture carrying a transcript. -/
def doneResp : TranscriptionResponse := ⟨"t1", .completed, some "merhaba", none⟩

/-- A failed response fixture carrying a server-side error message. -/
def failResp : TranscriptionResponse := ⟨"t1", .failed, none, some "boom"⟩

/-- A reachable completed state: the push channel delivered a result frame. -/
def completedState : TranscriptionState :=
  applyUpdate initialTranscriptionState (Update.push (WsFrame.result doneResp))

/-- A stopped polling iteration is absorbing: once `stopped` is set, an
iteration delivers nothing and schedules nothing. -/
theorem pollIter_stopped (interval : Nat) (s : PollState) (step : PollStep)
    (h : s.stopped = true) :
    pollIter interval s step
      = { stopped := true, delivered := s.delivered, nextDelay := none } := by
  simp [pollIter, h]

/-- Once the loop is stopped, no later iteration delivers anything and the
flag stays set. -/
theorem pollFold_stopped (interval : Nat) (steps : List PollStep)
    (s : PollState) (h : s.stopped = true) :
    (List.foldl (pollIter interval) s steps).delivered = s.delivered
      ∧ (List.foldl (pollIter interval) s steps).stopped = true := by
  induction steps generalizing s with
  | nil => exact ⟨rfl, h⟩
  | cons a l ih =>
      simp only [List.foldl_cons]
      rw [pollIter_stopped interval s a h]
      exact ih { stopped := true, delivered := s.delivered, nextDelay := none }
        rfl

/-- C1 counterexample: along the interleaving "push result frame, then push
status frame carrying `pending`", the phase regresses from Completed back to
Pending — the stale update is applied, not ignored. -/
theorem c1_counterexample :
    (applyUpdates initialTranscriptionState
        [Update.push (WsFrame.result doneResp)]).status = TaskStatus.completed
      ∧ (applyUpdates initialTranscriptionState
        [Update.push (WsFrame.result doneResp),
         Update.push (WsFrame.status TaskStatus.pending none)]).status
          = TaskStatus.pending
      ∧ TaskStatus.phaseRank TaskStatus.pending
          < TaskStatus.phaseRank TaskStatus.completed :=
  ⟨rfl, rfl, by decide⟩

/-- C1 amended: the controller reconciles updates last-write-wins with no
ordering guard: a poll update sets the phase to the incoming response's
status unconditionally, and a push status / result / error frame sets it to
the frame's status unconditionally, so an update whose phase is earlier than
the current one (or whose progress is lower) overwrites the state instead of
leaving it unchanged. -/
theorem c1_last_write_wins :
    (∀ (r : Rat) (s : TranscriptionState) (resp : TranscriptionResponse),
        (applyPollUpdate r s resp).status = resp.status)
      ∧ (∀ (s : TranscriptionState) (st : TaskStatus) (p : Option Rat),
        (applyWsMessage s (WsFrame.status st p)).status = st)
      ∧ (∀ (s : TranscriptionState) (d : TranscriptionResponse),
        (applyWsMessage s (WsFrame.result d)).status = TaskStatus.completed)
      ∧ (∀ (s : TranscriptionState) (e : Option String),
        (applyWsMessage s (WsFrame.error e)).status = TaskStatus.failed) :=
  ⟨fun _ _ _ => rfl, fun _ _ _ => rfl, fun _ _ => rfl, fun _ _ => rfl⟩

/-- C2 counterexample: after a terminal Completed state (reached by a push
result frame), a push error frame still overwrites the state: the status
becomes Failed and the error field is set — terminality is not sticky. -/
theorem c2_counterexample :
    (applyUpdates initialTranscriptionState
        [Update.push (WsFrame.result doneResp)]).status = TaskStatus.completed
      ∧ (applyUpdates initialTranscriptionState
        [Update.push (WsFrame.result doneResp)]).result = some doneResp
      ∧ (applyUpdates initialTranscriptionState
        [Update.push (WsFrame.result doneResp),
         Update.push (WsFrame.error (some "boom"))]).status = TaskStatus.failed
      ∧ (applyUpdates initialTranscriptionState
        [Update.push (WsFrame.result doneResp),
         Update.push (WsFrame.error (some "boom"))]).error = some "boom" :=
  ⟨rfl, rfl, rfl, rfl⟩

/-- C2 amended: once the polling loop has itself delivered a terminal
update it stops permanently and delivers nothing further, and a push
progress frame never alters status, result, or error; but poll responses
resolving after a terminal state reached on the other channel, and push
status / result / error frames, do overwrite those fields — the reducer has
no terminal-stickiness. -/
theorem c2_terminal_partial_stickiness (interval : Nat) (s : PollState)
    (step : PollStep) (resp : TranscriptionResponse) (steps : List PollStep)
    (t : TranscriptionState) (p : Option Rat) (st m : Option String)
    (hs : s.stopped = false) (hb : step.stopBefore = false)
    (ho : step.outcome = FetchOutcome.ok resp)
    (ht : resp.status.isTerminal = true) :
    (pollIter interval s step).stopped = true
      ∧ (List.foldl (pollIter interval) (pollIter interval s step)
          steps).delivered = (pollIter interval s step).delivered
      ∧ (applyWsMessage t (WsFrame.progress p st m)).status = t.status
      ∧ (applyWsMessage t (WsFrame.progress p st m)).result = t.result
      ∧ (applyWsMessage t (WsFrame.progress p st m)).error = t.error := by
  have hstop : (pollIter interval s step).stopped = true := by
    simp [pollIter, hs, hb, ho, ht]
  exact ⟨hstop,
    (pollFold_stopped interval steps (pollIter interval s step) hstop).1,
    rfl, rfl, rfl⟩

/-- Witness for the C2 amended theorem at a concrete run: the loop delivers
the terminal response, stops, and a subsequent scheduled iteration delivers
nothing; the progress frame leaves status, result, and error untouched. -/
theorem c2_terminal_partial_stickiness_witness :
    (pollIter 2000 pollInit ⟨false, false, FetchOutcome.ok doneResp⟩).stopped
        = true
      ∧ (List.foldl (pollIter 2000)
          (pollIter 2000 pollInit ⟨false, false, FetchOutcome.ok doneResp⟩)
          [⟨false, false, FetchOutcome.ok procResp⟩]).delivered
        = (pollIter 2000 pollInit
            ⟨false, false, FetchOutcome.ok doneResp⟩).delivered
      ∧ (applyWsMessage completedState
          (WsFrame.progress (some 10) none none)).status = completedState.status
      ∧ (applyWsMessage completedState
          (WsFrame.progress (some 10) none none)).result = completedState.result
      ∧ (applyWsMessage completedState
          (WsFrame.progress (some 10) none none)).error = completedState.error :=
  c2_terminal_partial_stickiness 2000 pollInit
    ⟨false, false, FetchOutcome.ok doneResp⟩ doneResp
    [⟨false, false, FetchOutcome.ok procResp⟩] completedState (some 10)
    none none rfl rfl rfl rfl

/-- C3 counterexample: the stop handle is invoked while the fetch is in
flight (`stopInFlight = true`), yet the resolved response is still handed
to `onUpdate` — the in-flight result is delivered, not discarded. -/
theorem c3_counterexample :
    (⟨false, true, FetchOutcome.ok procResp⟩ : PollStep).stopInFlight = true
      ∧ (pollIter 2000 pollInit
          ⟨false, true, FetchOutcome.ok procResp⟩).delivered = [procResp] :=
  ⟨rfl, rfl⟩

/-- C3 amended: after the stop handle is invoked, every iteration that
begins afterwards delivers nothing (the stopped flag is permanent and
absorbing), but a fetch that was already in flight when stop was invoked
still delivers its result to `onUpdate` on resolution. -/
theorem c3_stop_not_midflight (interval : Nat) (s₁ s₂ : PollState)
    (steps : List PollStep) (step : PollStep) (resp : TranscriptionResponse)
    (h1 : s₁.stopped = true)
    (h2 : s₂.stopped = false) (hb : step.stopBefore = false)
    (hf : step.stopInFlight = true)
    (ho : step.outcome = FetchOutcome.ok resp) :
    (List.foldl (pollIter interval) s₁ steps).delivered = s₁.delivered
      ∧ (pollIter interval s₂ step).delivered = s₂.delivered ++ [resp] := by
  refine ⟨(pollFold_stopped interval steps s₁ h1).1, ?_⟩
  simp only [pollIter, h2, hb, ho, Bool.or_self, Bool.false_or]
  cases h : resp.status.isTerminal <;> simp [h]

/-- Witness for the C3 amended theorem: a stopped loop ignores a scheduled
iteration, while a live iteration whose stop arrives mid-flight still
delivers the processing response. -/
theorem c3_stop_not_midflight_witness :
    (List.foldl (pollIter 2000) ⟨true, [doneResp], none⟩
        [⟨false, false, FetchOutcome.ok procResp⟩]).delivered = [doneResp]
      ∧ (pollIter 2000 ⟨false, [], some 0⟩
          ⟨false, true, FetchOutcome.ok doneResp⟩).delivered
        = [] ++ [doneResp] :=
  c3_stop_not_midflight 2000 ⟨true, [doneResp], none⟩ ⟨false, [], some 0⟩
    [⟨false, false, FetchOutcome.ok procResp⟩]
    ⟨false, true, FetchOutcome.ok doneResp⟩ doneResp rfl rfl rfl rfl rfl

/-- C4 counterexample: a poll update carrying status `failed` (the server
response does carry an error message) sets the state's status to Failed but
never writes the state's `error` field, which stays `none` — the invariant
`status = Failed → error ≠ none` is violated by an accepted update. -/
theorem c4_counterexample :
    (applyPollUpdate 0 initialTranscriptionState failResp).status
        = TaskStatus.failed
      ∧ (applyPollUpdate 0 initialTranscriptionState failResp).error = none :=
  ⟨rfl, rfl⟩

/-- C4 amended: every poll update stores the full response as `result` (so a
poll-delivered Completed state has a non-null result), a push result frame
sets Completed with its payload as result, and a failed submission and a
cancel from Processing set Failed with a non-null error; but a poll update
with status `failed` leaves the `error` field untouched, and a push status
frame can set Completed without touching `result`. -/
theorem c4_partial_invariant (r : Rat) (s : TranscriptionState)
    (resp d : TranscriptionResponse) (prev : TranscriptionState)
    (msg : String) (hk : HookState)
    (hp : hk.transcription.status = TaskStatus.processing) :
    (applyPollUpdate r s resp).result = some resp
      ∧ (applyWsMessage s (WsFrame.result d)).result = some d
      ∧ (applyWsMessage s (WsFrame.result d)).status = TaskStatus.completed
      ∧ (startTranscription prev (Except.error msg)).1.status
          = TaskStatus.failed
      ∧ (startTranscription prev (Except.error msg)).1.error = some msg
      ∧ (cancel hk).transcription.status = TaskStatus.failed
      ∧ (cancel hk).transcription.error = some cancelJobErrorMsg := by
  refine ⟨rfl, rfl, rfl, rfl, rfl, ?_, ?_⟩ <;> simp [cancel, hp]

/-- Witness for the C4 amended theorem at a concrete processing session. -/
theorem c4_partial_invariant_witness :
    (applyPollUpdate 0 initialTranscriptionState doneResp).result
        = some doneResp
      ∧ (applyWsMessage initialTranscriptionState
          (WsFrame.result doneResp)).result = some doneResp
      ∧ (applyWsMessage initialTranscriptionState
          (WsFrame.result doneResp)).status = TaskStatus.completed
      ∧ (startTranscription initialTranscriptionState
          (Except.error "bad request")).1.status = TaskStatus.failed
      ∧ (startTranscription initialTranscriptionState
          (Except.error "bad request")).1.error = some "bad request"
      ∧ (cancel ⟨initialUploadState, startTranscriptionBegin⟩).transcription.status
          = TaskStatus.failed
      ∧ (cancel ⟨initialUploadState, startTranscriptionBegin⟩).transcription.error
          = some cancelJobErrorMsg :=
  c4_partial_invariant 0 initialTranscriptionState doneResp doneResp
    initialTranscriptionState "bad request"
    ⟨initialUploadState, startTranscriptionBegin⟩ rfl

/-- C5: in a live polling iteration, a transport failure delivers nothing,
does not stop the loop, and schedules the retry at exactly twice the base
interval (the backoff never compounds past that ceiling, since every failed
iteration schedules `interval * 2`); a successful non-terminal fetch
delivers the update and reschedules at the base interval; a terminal fetch
delivers the update, stops the loop, and no later iteration ever delivers
again. -/
theorem c5_poll_backoff (interval : Nat) (s : PollState) (step : PollStep)
    (hs : s.stopped = false) (hb : step.stopBefore = false)
    (hf : step.stopInFlight = false) :
    (step.outcome = FetchOutcome.err →
        pollIter interval s step
          = { stopped := false, delivered := s.delivered
              nextDelay := some (interval * 2) })
      ∧ (∀ resp, step.outcome = FetchOutcome.ok resp →
          resp.status.isTerminal = false →
          pollIter interval s step
            = { stopped := false, delivered := s.delivered ++ [resp]
                nextDelay := some interval })
      ∧ (∀ resp, step.outcome = FetchOutcome.ok resp →
          resp.status.isTerminal = true →
          pollIter interval s step
              = { stopped := true, delivered := s.delivered ++ [resp]
                  nextDelay := none }
            ∧ ∀ steps,
              (List.foldl (pollIter interval) (pollIter interval s step)
                steps).delivered = s.delivered ++ [resp]) := by
  refine ⟨?_, ?_, ?_⟩
  · intro ho
    simp [pollIter, hs, hb, hf, ho]
  · intro resp ho hterm
    simp [pollIter, hs, hb, hf, ho, hterm]
  · intro resp ho hterm
    have heq : pollIter interval s step
        = { stopped := true, delivered := s.delivered ++ [resp]
            nextDelay := none } := by
      simp [pollIter, hs, hb, hf, ho, hterm]
    refine ⟨heq, fun steps => ?_⟩
    have := (pollFold_stopped interval steps (pollIter interval s step)
      (by rw [heq])).1
    rw [this, heq]

/-- Witness for C5 at a concrete run: a failed fetch backs off to twice the
base interval, a processing fetch reschedules at the base interval, and a
completed fetch stops the loop for good. -/
theorem c5_poll_backoff_witness :
    pollIter 2000 pollInit ⟨false, false, FetchOutcome.err⟩
        = { stopped := false, delivered := [], nextDelay := some (2000 * 2) }
      ∧ pollIter 2000 pollInit ⟨false, false, FetchOutcome.ok procResp⟩
        = { stopped := false, delivered := [procResp]
            nextDelay := some 2000 }
      ∧ pollIter 2000 pollInit ⟨false, false, FetchOutcome.ok doneResp⟩
        = { stopped := true, delivered := [doneResp], nextDelay := none } :=
  ⟨(c5_poll_backoff 2000 pollInit ⟨false, false, FetchOutcome.err⟩
      rfl rfl rfl).1 rfl,
   (c5_poll_backoff 2000 pollInit ⟨false, false, FetchOutcome.ok procResp⟩
      rfl rfl rfl).2.1 procResp rfl rfl,
   ((c5_poll_backoff 2000 pollInit ⟨false, false, FetchOutcome.ok doneResp⟩
      rfl rfl rfl).2.2 doneResp rfl rfl).1⟩

/-- A transcription state with a live session (submitted, processing). -/
def activeTranscriptionState : TranscriptionState :=
  { taskId := some "t1", status := .processing, progress := 30
    stage := none, message := none, result := none, error := none }

/-- C6 counterexample: with a previous session still active (processing, a
task id assigned), a new `startTranscription` call is not rejected: it
proceeds, silently replaces the session state with a new task id, and
starts a second polling loop. -/
theorem c6_counterexample :
    activeTranscriptionState.status = TaskStatus.processing
      ∧ (startTranscription activeTranscriptionState
          (Except.ok ⟨"t2", TaskStatus.processing, none, none⟩)).2 = true
      ∧ (startTranscription activeTranscriptionState
          (Except.ok ⟨"t2", TaskStatus.processing, none, none⟩)).1.taskId
        = some "t2" :=
  ⟨rfl, rfl, rfl⟩

/-- C6 amended: `startTranscription` performs no precondition check: its
resulting state and actions are completely independent of the previous
session state, so a call made while a job is active silently overwrites the
session and, whenever submission succeeds, starts a new polling loop and
push channel. -/
theorem c6_no_precondition_check (p q : TranscriptionState)
    (submit : Except String TranscriptionResponse)
    (resp : TranscriptionResponse) :
    startTranscription p submit = startTranscription q submit
      ∧ (startTranscription p (Except.ok resp)).2 = true := by
  constructor
  · cases submit <;> rfl
  · rfl

/-- C7: when the upload fails, `uploadFile` records the failure message,
clears the uploading flag, returns no reference, and leaves the job state
untouched (still Pending); `processFile` then short-circuits: no job is
submitted and no polling loop is started. -/
theorem c7_upload_failure (s : HookState) (f msg : String) (pe : List Rat)
    (submit : Except String TranscriptionResponse)
    (hp : s.transcription.status = TaskStatus.pending) :
    (uploadFile s f pe (Except.error msg)).2 = none
      ∧ (uploadFile s f pe (Except.error msg)).1.upload.error = some msg
      ∧ (uploadFile s f pe (Except.error msg)).1.upload.uploading = false
      ∧ (uploadFile s f pe (Except.error msg)).1.transcription
          = s.transcription
      ∧ (uploadFile s f pe (Except.error msg)).1.transcription.status
          = TaskStatus.pending
      ∧ processFile s f pe (Except.error msg) submit
          = ((uploadFile s f pe (Except.error msg)).1, false) :=
  ⟨rfl, rfl, rfl, rfl, hp, rfl⟩

/-- Witness for C7 on a fresh controller with a network-failed upload. -/
theorem c7_upload_failure_witness :
    (uploadFile initialHookState "a.mp3" [10]
        (Except.error "Network error during upload")).2 = none
      ∧ (uploadFile initialHookState "a.mp3" [10]
          (Except.error "Network error during upload")).1.upload.error
        = some "Network error during upload"
      ∧ (uploadFile initialHookState "a.mp3" [10]
          (Except.error "Network error during upload")).1.upload.uploading
        = false
      ∧ (uploadFile initialHookState "a.mp3" [10]
          (Except.error "Network error during upload")).1.transcription
        = initialHookState.transcription
      ∧ (uploadFile initialHookState "a.mp3" [10]
          (Except.error "Network error during upload")).1.transcription.status
        = TaskStatus.pending
      ∧ processFile initialHookState "a.mp3" [10]
          (Except.error "Network error during upload")
          (Except.ok procResp)
        = ((uploadFile initialHookState "a.mp3" [10]
            (Except.error "Network error during upload")).1, false) :=
  c7_upload_failure initialHookState "a.mp3" "Network error during upload"
    [10] (Except.ok procResp) rfl

/-- C8: `cancel` is idempotent on the observable state; when the status is
not Processing (Pending or terminal) the job state is left unchanged; and a
transition into Failed caused by `cancel` can only happen when the session
was uploading or processing at the time of the call. -/
theorem c8_cancel_idempotent (s : HookState) :
    cancel (cancel s) = cancel s
      ∧ (s.transcription.status ≠ TaskStatus.processing →
          (cancel s).transcription = s.transcription)
      ∧ ((cancel s).transcription.status = TaskStatus.failed →
          s.transcription.status ≠ TaskStatus.failed →
          s.upload.uploading = true
            ∨ s.transcription.status = TaskStatus.processing) := by
  by_cases hu : (s.upload.file.isSome && s.upload.uploading) = true
  · by_cases ht : s.transcription.status = TaskStatus.processing
    · refine ⟨?_, fun hc => absurd ht hc, fun _ _ => Or.inr ht⟩
      simp [cancel, hu, ht]
    · refine ⟨?_, fun _ => by simp [cancel, ht], fun hf hnf => ?_⟩
      · simp [cancel, hu, ht]
      · exact absurd (by simpa [cancel, ht] using hf) hnf
  · by_cases ht : s.transcription.status = TaskStatus.processing
    · refine ⟨?_, fun hc => absurd ht hc, fun _ _ => Or.inr ht⟩
      simp [cancel, hu, ht]
    · refine ⟨?_, fun _ => by simp [cancel, ht], fun hf hnf => ?_⟩
      · simp [cancel, hu, ht]
      · exact absurd (by simpa [cancel, ht] using hf) hnf

/-- Witness for C8 on a fresh (Pending, idle) controller: a second cancel
changes nothing and the job state is untouched by the first. -/
theorem c8_cancel_idempotent_witness :
    cancel (cancel initialHookState) = cancel initialHookState
      ∧ (cancel initialHookState).transcription
          = initialHookState.transcription :=
  ⟨(c8_cancel_idempotent initialHookState).1,
   (c8_cancel_idempotent initialHookState).2.1 (by decide)⟩

/-- A reachable-shaped state with a task id but no result yet (submission
succeeded, job still processing). -/
def taskOnlyState : HookState :=
  ⟨initialUploadState, activeTranscriptionState⟩

/-- C9 counterexample: with the result absent but a task id present,
`downloadResult` does not fail with the no-result error — it performs the
transfer; its guard checks the task id, not the result. -/
theorem c9_counterexample :
    taskOnlyState.transcription.result = none
      ∧ (downloadResult taskOnlyState "txt").2
        = DownloadAction.transfer "t1" "txt" :=
  ⟨rfl, rfl⟩

/-- C9 amended: both operations always leave the controller state unchanged;
`downloadResult` fails with the no-result error exactly when the stored
task id is absent or empty — even when the result is absent it performs the
transfer whenever a task id is present — and `copyToClipboard` fails
whenever the result (or its text) is absent. -/
theorem c9_download_copy (s : HookState) (format : String) :
    (downloadResult s format).1 = s
      ∧ (copyToClipboard s).1 = s
      ∧ (s.transcription.taskId = none →
          (downloadResult s format).2 = DownloadAction.noResultError)
      ∧ (∀ tid, s.transcription.taskId = some tid → tid ≠ "" →
          (downloadResult s format).2 = DownloadAction.transfer tid format)
      ∧ (s.transcription.result = none →
          (copyToClipboard s).2 = CopyAction.noTextError) := by
  refine ⟨?_, ?_, ?_, ?_, ?_⟩
  · unfold downloadResult
    cases s.transcription.taskId with
    | none => rfl
    | some tid => by_cases h : tid = "" <;> simp [h]
  · unfold copyToClipboard
    rcases s.transcription.result with _ | res
    · rfl
    · rcases h : res.text with _ | t
      · simp [h]
      · by_cases ht : t = "" <;> simp [h, ht]
  · intro h
    simp [downloadResult, h]
  · intro tid h hne
    simp [downloadResult, h, hne]
  · intro h
    simp [copyToClipboard, h]

/-- Witness for C9 amended: on a fresh controller the download fails with
the no-result error and changes nothing; on a processing session with a
task id it performs the transfer. -/
theorem c9_download_copy_witness :
    (downloadResult initialHookState "txt").1 = initialHookState
      ∧ (downloadResult initialHookState "txt").2
        = DownloadAction.noResultError
      ∧ (downloadResult taskOnlyState "srt").2
        = DownloadAction.transfer "t1" "srt"
      ∧ (copyToClipboard initialHookState).2 = CopyAction.noTextError :=
  ⟨(c9_download_copy initialHookState "txt").1,
   (c9_download_copy initialHookState "txt").2.2.1 rfl,
   (c9_download_copy taskOnlyState "srt").2.2.2.1 "t1" rfl (by decide),
   (c9_download_copy initialHookState "txt").2.2.2.2 rfl⟩

/-- C10: the poll callback sets the displayed progress from the update's
status alone (the response carries no percentage): a randomized value in
[25, 75) while processing, exactly 100 on completed, exactly 0 on failed,
and the previous progress otherwise. -/
theorem c10_poll_progress (r : Rat) (s : TranscriptionState)
    (resp : TranscriptionResponse) (h0 : 0 ≤ r) (h1 : r < 1) :
    (resp.status = TaskStatus.processing →
        25 ≤ (applyPollUpdate r s resp).progress
          ∧ (applyPollUpdate r s resp).progress < 75)
      ∧ (resp.status = TaskStatus.completed →
          (applyPollUpdate r s resp).progress = 100)
      ∧ (resp.status = TaskStatus.failed →
          (applyPollUpdate r s resp).progress = 0)
      ∧ (resp.status = TaskStatus.pending →
          (applyPollUpdate r s resp).progress = s.progress) := by
  refine ⟨?_, ?_, ?_, ?_⟩ <;> intro h <;> simp [applyPollUpdate, h]
  constructor <;> nlinarith

/-- Witness for C10 at `r = 1/2` on a processing update, and at the three
other statuses. -/
theorem c10_poll_progress_witness :
    (25 ≤ (applyPollUpdate (1 / 2) initialTranscriptionState procResp).progress
        ∧ (applyPollUpdate (1 / 2) initialTranscriptionState
            procResp).progress < 75)
      ∧ (applyPollUpdate (1 / 2) initialTranscriptionState doneResp).progress
        = 100
      ∧ (applyPollUpdate (1 / 2) initialTranscriptionState failResp).progress
        = 0 :=
  ⟨(c10_poll_progress (1 / 2) initialTranscriptionState procResp
      (by norm_num) (by norm_num)).1 rfl,
   (c10_poll_progress (1 / 2) initialTranscriptionState doneResp
      (by norm_num) (by norm_num)).2.1 rfl,
   (c10_poll_progress (1 / 2) initialTranscriptionState failResp
      (by norm_num) (by norm_num)).2.2.1 rfl⟩

end TurkishTranscribe
